import Mathlib

/-!
Verification of the sntpex-ti SNTP client (src/src/sntp_ex_lib_ti.c,
src/include/sntp_ex_lib_ti.h) against its natural-language specification.

The C sources are shallowly embedded: machine integers become Nat (with
explicit reductions modulo 2^32 or 2^64 where the C arithmetic can wrap),
the client handle, the virtual socket and the global asynchronous-event
slot become one explicit state record, and each state-machine handler
becomes a pure function from that state (plus an environment describing
the transport and time-source collaborators) to an error code and a new
state.  The driving while-loop of sntpex_client_timestamp_get is embedded
with an explicit fuel argument; on the real code paths at most five
iterations ever run, so any fuel of at least six reproduces the C loop.
-/

namespace SntpEx

/-! ## Configuration constants (src/include/sntp_ex_lib_ti.h) -/

/-- exlibSNTP_TIME_MESSAGE_MAX_SIZE: size of the payload buffer, 48-byte
NTP record plus 20 bytes of optional authentication data. -/
def exlibSNTP_TIME_MESSAGE_MAX_SIZE : Nat := 68

/-- exlibSNTP_CLIENT_DEFAULT_TIMEOUT, in milliseconds. -/
def exlibSNTP_CLIENT_DEFAULT_TIMEOUT : Nat := 3000

/-- exlibDIFF_SEC_1900_1970: seconds between the NTP epoch (1900) and the
Unix epoch (1970). -/
def exlibDIFF_SEC_1900_1970 : Nat := 2208988800

/-- exlibSNTP_SOFTSR_RECV_BIT = 1u << 0. -/
def exlibSNTP_SOFTSR_RECV_BIT : Nat := 1

/-- exlibSNTP_SOFTSR_SEND_BIT = 1u << 1. -/
def exlibSNTP_SOFTSR_SEND_BIT : Nat := 2

/-- SLNETERR_BSD_EAGAIN from the TI SimpleLink error header: the
would-block return code of the non-blocking socket calls. -/
def SLNETERR_BSD_EAGAIN : Int := -11

/-- specNTP_VERSION_V4. -/
def specNTP_VERSION_V4 : Nat := 4

/-- specNTP_MODE_CLIENT. -/
def specNTP_MODE_CLIENT : Nat := 3

/-- specNTP_MODE_SERVER. -/
def specNTP_MODE_SERVER : Nat := 4

/-- specNTP_MODE_BROADCAST. -/
def specNTP_MODE_BROADCAST : Nat := 5

/-- sizeof(struct x_sntp_request): the struct is __packed, so its size is
the sum of its field sizes: 4 one-byte header fields, 3 four-byte words
and 4 eight-byte timestamps = 48 bytes. -/
def sizeof_x_sntp_request : Nat := 48

/-! ## Error codes (sntp_ud_t) and state enumeration -/

/-- The sntp_ud_t error enumeration of the header. -/
inductive sntp_ud where
  | SNTPEX_SUCCESS
  | SNTPEX_ERROR
  | SNTPEX_ERR_SOCKET_CREATE
  | SNTPEX_ERR_SOCKET_SET_OPT
  | SNTPEX_ERR_FAULT_INIT
  | SNTPEX_ERR_DNS_RESOLVE
  | SNTPEX_ERR_NULL_PTR
  | SNTPEX_ERR_RX
  | SNTPEX_ERR_TX
  | SNTPEX_ERR_REQUEST_REJECTED
  | SNTPEX_ERR_INVALID_MESSAGE
  | SNTPEX_ERR_TIMEOUT
deriving DecidableEq

/-- The udSntpClientState state-machine enumeration of the header. -/
inductive udSntpClientState where
  | OPEN
  | SENDING
  | RECEIVING
  | HANDLING_RSP
  | CLOSE
  | COMPLETE
deriving DecidableEq

/-! ## Byte-order conversion

The target (CC3135 host MCU) is little-endian, so SlNetUtil_ntohl and
SlNetUtil_htonl both reverse the four bytes of a 32-bit word. -/

/-- exlibSLNETUTIL_NTOHL: reverse the four bytes of a 32-bit value
(network big-endian to little-endian host order). -/
def exlibSLNETUTIL_NTOHL (x : Nat) : Nat :=
  (x % 256) * 16777216 + (x / 256 % 256) * 65536 + (x / 65536 % 256) * 256
    + x / 16777216 % 256

/-- exlibSLNETUTIL_HTONL: host to network order, the same byte reversal
on a little-endian host. -/
def exlibSLNETUTIL_HTONL (x : Nat) : Nat := exlibSLNETUTIL_NTOHL x

theorem ntohl_lt (x : Nat) : exlibSLNETUTIL_NTOHL x < 2 ^ 32 := by
  unfold exlibSLNETUTIL_NTOHL
  omega

theorem ntohl_bytes (b0 b1 b2 b3 : Nat) (h0 : b0 < 256) (h1 : b1 < 256)
    (h2 : b2 < 256) (h3 : b3 < 256) :
    exlibSLNETUTIL_NTOHL (b3 * 16777216 + b2 * 65536 + b1 * 256 + b0)
      = b0 * 16777216 + b1 * 65536 + b2 * 256 + b3 := by
  unfold exlibSLNETUTIL_NTOHL
  omega

theorem ntohl_ntohl (x : Nat) (h : x < 2 ^ 32) :
    exlibSLNETUTIL_NTOHL (exlibSLNETUTIL_NTOHL x) = x := by
  have hx : x = (x / 16777216 % 256) * 16777216 + (x / 65536 % 256) * 65536
      + (x / 256 % 256) * 256 + x % 256 := by omega
  rw [hx]
  rw [ntohl_bytes _ _ _ _ (by omega) (by omega) (by omega) (by omega)]
  rw [ntohl_bytes _ _ _ _ (by omega) (by omega) (by omega) (by omega)]

/-! ## Timestamp converter (prv_utility_frac_to_usecs,
prv_utility_ntp_to_epoch) -/

/-- One iteration of the frac-to-usecs loop body, operating on the
running value and the current six-bit segment.  All intermediate values
stay far below 2^32 (see frac_to_usecs_le), so the uint32 arithmetic of
the C code never wraps and is embedded as plain Nat arithmetic. -/
def fracStep (value segment : Nat) : Nat :=
  if value &&& 0x3F ≥ 32 then value >>> 6 + segment * 15625 + 1
  else value >>> 6 + segment * 15625

/-- prv_utility_frac_to_usecs: iterative conversion of a 32-bit NTP
fraction to microseconds; the for loop visits index = 2, 8, 14, 20, 26. -/
def prv_utility_frac_to_usecs (fraction : Nat) : Nat :=
  List.foldl (fun value index => fracStep value (fraction >>> index &&& 0x3F))
    0 [2, 8, 14, 20, 26]

/-- One step of the fraction conversion as the specification words it:
replace the accumulator by (accumulator >> 6) + chunk * 15625, plus 1
when the low 6 bits of the pre-shift accumulator are at least 32. -/
def specFracStep (acc chunk : Nat) : Nat :=
  acc / 64 + chunk * 15625 + (if acc % 64 ≥ 32 then 1 else 0)

/-- The fraction conversion as the specification words it: process the
five six-bit chunks of the 32-bit fraction at shift offsets
2, 8, 14, 20, 26. -/
def spec_frac_to_usecs (F : Nat) : Nat :=
  specFracStep
    (specFracStep
      (specFracStep
        (specFracStep
          (specFracStep 0 (F / 4 % 64))
          (F / 256 % 64))
        (F / 16384 % 64))
      (F / 1048576 % 64))
    (F / 67108864 % 64)

theorem land_63_eq_mod (x : Nat) : x &&& 63 = x % 64 := by
  have h := Nat.and_pow_two_sub_one_eq_mod x 6
  norm_num at h
  exact h

theorem fracStep_eq_specFracStep (v s : Nat) : fracStep v s = specFracStep v s := by
  unfold fracStep specFracStep
  rw [land_63_eq_mod, Nat.shiftRight_eq_div_pow]
  norm_num
  split <;> omega

theorem fracStep_le (v s : Nat) (hv : v ≤ 1000001) (hs : s ≤ 63) :
    fracStep v s ≤ 1000001 := by
  unfold fracStep
  rw [Nat.shiftRight_eq_div_pow]
  split <;> norm_num <;> omega

/-- The iterative conversion never exceeds 1000001 microseconds. -/
theorem frac_to_usecs_le (F : Nat) : prv_utility_frac_to_usecs F ≤ 1000001 := by
  unfold prv_utility_frac_to_usecs
  simp only [List.foldl]
  have hseg : ∀ i : Nat, F >>> i &&& 0x3F ≤ 63 := fun i => Nat.and_le_right
  apply fracStep_le _ _ _ (hseg 26)
  apply fracStep_le _ _ _ (hseg 20)
  apply fracStep_le _ _ _ (hseg 14)
  apply fracStep_le _ _ _ (hseg 8)
  apply fracStep_le _ _ _ (hseg 2)
  omega

/-- prv_utility_ntp_to_epoch: subtract the 1900-to-1970 offset from the
seconds, scale to microseconds and add the converted fraction.  The
unsuffixed decimal constant 2208988800 does not fit in the 32-bit int or
long of the target, so by C99 6.4.4.1 it has type long long: the
subtraction and the multiplication are exact signed 64-bit arithmetic,
and the cast to uint64_t reduces the (possibly negative) product modulo
2^64.  The final uint64_t addition is likewise reduced modulo 2^64. -/
def prv_utility_ntp_to_epoch (ulSeconds ulFraction : Nat) : Nat :=
  ((((ulSeconds : Int) - (exlibDIFF_SEC_1900_1970 : Int)) * 1000000 % 2 ^ 64).toNat
    + prv_utility_frac_to_usecs ulFraction) % 2 ^ 64

/-- C10: for every 32-bit fraction F the fraction-to-microseconds
conversion equals the specified iterative approximation over the five
six-bit chunks at shift offsets 2, 8, 14, 20, 26 with the carry rule of
the specification; in particular F = 0 yields 0 microseconds and
F = 2^31 yields 500000 microseconds. -/
theorem frac_to_usecs_matches_spec :
    (∀ F : Nat, prv_utility_frac_to_usecs F = spec_frac_to_usecs F)
    ∧ prv_utility_frac_to_usecs 0 = 0
    ∧ prv_utility_frac_to_usecs (2 ^ 31) = 500000 := by
  refine ⟨fun F => ?_, by decide, by decide⟩
  simp only [prv_utility_frac_to_usecs, List.foldl, spec_frac_to_usecs,
    fracStep_eq_specFracStep, land_63_eq_mod, Nat.shiftRight_eq_div_pow]

/-- C2: for 32-bit inputs the NTP-to-epoch conversion returns
(S - 2208988800) * 1000000 plus the converted fraction; the constant has
64-bit type, so for S at or after the Unix epoch the value is exact, and
for pre-1970 S the negative 64-bit product wraps to a defined value
modulo 2^64 (no undefined behavior). -/
theorem ntp_to_epoch_epoch_offset (S F : Nat) (hS : S < 2 ^ 32) (hF : F < 2 ^ 32) :
    (2208988800 ≤ S → prv_utility_ntp_to_epoch S F
        = (S - 2208988800) * 1000000 + prv_utility_frac_to_usecs F)
    ∧ (S < 2208988800 → prv_utility_ntp_to_epoch S F
        = (2 ^ 64 - (2208988800 - S) * 1000000 + prv_utility_frac_to_usecs F) % 2 ^ 64) := by
  have hfle : prv_utility_frac_to_usecs F ≤ 1000001 := frac_to_usecs_le F
  unfold prv_utility_ntp_to_epoch exlibDIFF_SEC_1900_1970
  constructor
  · intro h
    have hb : (S - 2208988800) * 1000000 < 2 ^ 64 := by omega
    have hc : ((S : Int) - ((2208988800 : Nat) : Int)) * 1000000
        = (((S - 2208988800) * 1000000 : Nat) : Int) := by omega
    rw [hc, Int.emod_eq_of_lt (Int.natCast_nonneg _) (by exact_mod_cast hb),
      Int.toNat_natCast]
    exact Nat.mod_eq_of_lt (by omega)
  · intro h
    have hN : 2 ^ 64 - (2208988800 - S) * 1000000 < 2 ^ 64 := by omega
    have hc : ((S : Int) - ((2208988800 : Nat) : Int)) * 1000000
        = ((2 ^ 64 - (2208988800 - S) * 1000000 : Nat) : Int) + 2 ^ 64 * (-1) := by
      omega
    rw [hc, Int.add_mul_emod_self_left,
      Int.emod_eq_of_lt (Int.natCast_nonneg _) (by exact_mod_cast hN),
      Int.toNat_natCast]

/-- Witness for ntp_to_epoch_epoch_offset at S = 3900000000 (a 2023-era
NTP time) and F = 2^31. -/
theorem ntp_to_epoch_epoch_offset_witness :
    2208988800 ≤ 3900000000 ∧
    prv_utility_ntp_to_epoch 3900000000 2147483648
      = (3900000000 - 2208988800) * 1000000 + prv_utility_frac_to_usecs 2147483648 :=
  ⟨by norm_num,
    (ntp_to_epoch_epoch_offset 3900000000 2147483648 (by norm_num) (by norm_num)).1
      (by norm_num)⟩

/-! ## State of the client, the virtual socket and the global event slot

The C library keeps the client handle (sntpex_client_handle_t), the
virtual socket (static struct vsocket uvirtual_sock, referenced through
p_client->sock) and the asynchronous event slot (volatile struct
ux_sntpAsynchEvent xsntpAsynchEvent).  They are combined into one state
record; the caller-supplied result record (struct xTimestampCtx_t,
referenced through p_client->xTimestampList) is part of the state as
well.  Only the fields the protocol engine reads or writes are modelled;
pointers that are only dereferenced (never reseated) become plain
fields, and p_client->sock == NULL becomes the flag sockPresent. -/

/-- The NtpTimestamp union: 32-bit seconds and 32-bit fraction, stored
as the raw values read from the little-endian host memory.  The uint64
view val is zero exactly when both halves are zero. -/
structure NtpTimestamp where
  seconds : Nat
  fraction : Nat

/-- struct x_sntp_request: the wire record overlaid on the payload
buffer.  Multi-byte fields hold the raw values obtained by reading the
big-endian wire bytes as little-endian host words; the code applies
exlibSLNETUTIL_NTOHL when it needs the numeric value. -/
structure x_sntp_request where
  li : Nat
  vn : Nat
  mode : Nat
  stratum : Nat
  poll : Nat
  precision : Nat
  rootDelay : Nat
  rootDispersion : Nat
  referenceId : Nat
  referenceTimestamp : NtpTimestamp
  originateTimestamp : NtpTimestamp
  receiveTimestamp : NtpTimestamp
  transmitTimestamp : NtpTimestamp

/-- The all-zero wire record (the result of memset to 0). -/
def zeroPacket : x_sntp_request :=
  { li := 0, vn := 0, mode := 0, stratum := 0, poll := 0, precision := 0
    rootDelay := 0, rootDispersion := 0, referenceId := 0
    referenceTimestamp := ⟨0, 0⟩, originateTimestamp := ⟨0, 0⟩
    receiveTimestamp := ⟨0, 0⟩, transmitTimestamp := ⟨0, 0⟩ }

/-- struct xTimestampCtx_t: the caller-supplied result record. -/
structure xTimestampCtx_t where
  referenceTimestamp : NtpTimestamp
  originateTimestamp : NtpTimestamp
  receiveTimestamp : NtpTimestamp
  transmitTimestamp : NtpTimestamp
  originate64_ts : Nat
  reference64_ts : Nat
  receive64_ts : Nat
  transmit64_ts : Nat

/-- struct ux_sntpAsynchEvent: the single-slot event bridge.  The
callback pointer is modelled by whether a callback is registered. -/
structure ux_sntpAsynchEvent where
  timestamp : Nat
  cbRegistered : Bool
  SR : Nat

/-- Combined state: client handle + virtual socket + global event slot +
the caller-supplied result record. -/
structure GState where
  state : udSntpClientState
  timeout : Nat
  startTime : Nat
  payload : x_sntp_request
  payloadLen : Nat
  kissCode : Nat
  expected_orig_ts : Nat
  record : xTimestampCtx_t
  sockPresent : Bool
  fd : Int
  ev : ux_sntpAsynchEvent

/-- Environment: the values produced by the external collaborators
during one pass of the state machine.  The send/receive retry loops only
re-issue the transport call while it returns SLNETERR_BSD_EAGAIN and the
tick deadline has not passed; the loops read but never write the
modelled state, so each loop is abstracted by the final SLReturnCode it
leaves behind (sendResult, recvResult).  isrTimestamp is the value the
concurrently running ISR has stored in the shared event slot by the time
the receive call returns (0 when the ISR never fired). -/
structure Env where
  tick : Nat
  unixTime : Nat
  createResult : Int
  setOptResult : Int
  sendResult : Int
  recvResult : Int
  recvPacket : x_sntp_request
  isrTimestamp : Nat

/-- Clear a bit field in the 8-bit soft status register:
SR &= ~(eventbitField). -/
def byteClear (sr bit : Nat) : Nat := sr &&& (255 ^^^ bit)

/-- prv_utility_register_event: store the callback (Receive passes
NULL, i.e. false) and set the event bit in the soft status register. -/
def prv_utility_register_event (eventbitField : Nat) (cb : Bool)
    (ev : ux_sntpAsynchEvent) : ux_sntpAsynchEvent :=
  { ev with cbRegistered := cb, SR := ev.SR ||| eventbitField }

/-- prv_utility_unregister_event: clear the captured timestamp, the
callback and the event bit. -/
def prv_utility_unregister_event (eventbitField : Nat)
    (ev : ux_sntpAsynchEvent) : ux_sntpAsynchEvent :=
  { timestamp := 0, cbRegistered := false, SR := byteClear ev.SR eventbitField }

/-- prv_utility_build_request: zero the payload, fill in the protocol
header fields, save the os tick as the expected originate nonce, place
its byte-swapped value in the transmit-timestamp fraction and record the
payload length.  The C function always returns SNTPEX_SUCCESS. -/
def prv_utility_build_request (tick : Nat) (g : GState) : sntp_ud × GState :=
  (.SNTPEX_SUCCESS,
    { g with
        payload :=
          { zeroPacket with
              vn := specNTP_VERSION_V4
              mode := specNTP_MODE_CLIENT
              stratum := 2
              poll := 0x06
              precision := 0xec
              transmitTimestamp :=
                { seconds := 0, fraction := exlibSLNETUTIL_HTONL tick } }
        expected_orig_ts := tick
        payloadLen := sizeof_x_sntp_request })

/-! ## State handlers (sFct_sntp_*) -/

/-- sFct_sntp_OpenConnection: close any previously open descriptor,
create a fresh UDP socket and set the socket options, then move to
SENDING.  A negative create result is stored in fd before the check. -/
def sFct_sntp_OpenConnection (env : Env) (g : GState) : sntp_ud × GState :=
  if g.sockPresent = false then (.SNTPEX_ERR_NULL_PTR, g)
  else
    let g1 := if g.fd ≠ -1 then { g with fd := -1 } else g
    let g2 := { g1 with fd := env.createResult }
    if g2.fd < 0 then (.SNTPEX_ERR_SOCKET_CREATE, g2)
    else if env.setOptResult < 0 then (.SNTPEX_ERR_SOCKET_SET_OPT, g2)
    else (.SNTPEX_SUCCESS, { g2 with state := .SENDING })

/-- sFct_sntp_SendRequest: build the request, capture originate64 (T1)
from the time source, transmit (the retry loop is abstracted by its
final return code), then classify the result.  On success the payload
buffer is cleared and the state moves to RECEIVING. -/
def sFct_sntp_SendRequest (env : Env) (g : GState) : sntp_ud × GState :=
  let g1 := (prv_utility_build_request env.tick g).2
  let g2 := { g1 with record := { g1.record with originate64_ts := env.unixTime } }
  if env.sendResult = SLNETERR_BSD_EAGAIN then (.SNTPEX_ERR_TIMEOUT, g2)
  else if env.sendResult < 0 ∨ env.sendResult ≠ (g2.payloadLen : Int) then
    (.SNTPEX_ERR_TX, g2)
  else (.SNTPEX_SUCCESS, { g2 with payload := zeroPacket, state := .RECEIVING })

/-- sFct_sntp_ReceiveResponse: register the receive event (with a NULL
callback), receive (the retry loop is abstracted by its final return
code; a non-negative return means the transport wrote the datagram into
the payload buffer, and the concurrently running ISR may have stored the
arrival timestamp into the shared event slot), then classify.  On a
full-length read with a non-zero event timestamp, store that timestamp
as reference64 (T4), unregister the event and move to HANDLING_RSP. -/
def sFct_sntp_ReceiveResponse (env : Env) (g : GState) : sntp_ud × GState :=
  let g1 := { g with
                ev := prv_utility_register_event exlibSNTP_SOFTSR_RECV_BIT false g.ev }
  let g2 := if 0 ≤ env.recvResult then { g1 with payload := env.recvPacket } else g1
  let g3 := { g2 with ev := { g2.ev with timestamp := env.isrTimestamp } }
  if env.recvResult = SLNETERR_BSD_EAGAIN then (.SNTPEX_ERR_TIMEOUT, g3)
  else if env.recvResult < 0 then (.SNTPEX_ERR_RX, g3)
  else if env.recvResult ≠ (g3.payloadLen : Int) then (.SNTPEX_ERR_INVALID_MESSAGE, g3)
  else if g3.ev.timestamp = 0 then (.SNTPEX_ERR_INVALID_MESSAGE, g3)
  else
    let g4 := { g3 with
                  record := { g3.record with reference64_ts := g3.ev.timestamp } }
    let g5 := { g4 with
                  ev := prv_utility_unregister_event exlibSNTP_SOFTSR_RECV_BIT g4.ev }
    (.SNTPEX_SUCCESS, { g5 with state := .HANDLING_RSP })

/-- sFct_sntp_CloseConnection: close the descriptor if it is open, reset
it to the unopened sentinel -1 and return the state to OPEN. -/
def sFct_sntp_CloseConnection (g : GState) : sntp_ud × GState :=
  if g.sockPresent = false then (.SNTPEX_ERR_NULL_PTR, g)
  else
    let g1 := if g.fd ≠ -1 then { g with fd := -1 } else g
    (.SNTPEX_SUCCESS, { g1 with state := .OPEN })

/-- sFct_sntp_HandlingResponse: validate the reply in order (length,
version, transmit timestamp, mode, originate nonce), clear the kiss
code, handle Kiss-of-Death on stratum 0, otherwise decode the four
timestamps into the result record and move to COMPLETE. -/
def sFct_sntp_HandlingResponse (g : GState) : sntp_ud × GState :=
  let p := g.payload
  if g.payloadLen < sizeof_x_sntp_request then (.SNTPEX_ERR_INVALID_MESSAGE, g)
  else if p.vn = 0 then (.SNTPEX_ERR_INVALID_MESSAGE, g)
  else if p.transmitTimestamp.seconds = 0 ∧ p.transmitTimestamp.fraction = 0 then
    (.SNTPEX_ERR_INVALID_MESSAGE, g)
  else if p.mode ≠ specNTP_MODE_SERVER ∧ p.mode ≠ specNTP_MODE_BROADCAST then
    (.SNTPEX_ERR_INVALID_MESSAGE, g)
  else if p.originateTimestamp.seconds ≠ 0
      ∨ p.originateTimestamp.fraction ≠ exlibSLNETUTIL_NTOHL g.expected_orig_ts then
    (.SNTPEX_ERR_INVALID_MESSAGE, g)
  else
    let g1 := { g with kissCode := 0 }
    if p.stratum = 0 then
      (.SNTPEX_ERR_REQUEST_REJECTED,
        { g1 with kissCode := exlibSLNETUTIL_NTOHL p.referenceId })
    else
      (.SNTPEX_SUCCESS,
        { g1 with
            record :=
              { g1.record with
                  transmit64_ts :=
                    prv_utility_ntp_to_epoch
                      (exlibSLNETUTIL_NTOHL p.transmitTimestamp.seconds)
                      (exlibSLNETUTIL_NTOHL p.transmitTimestamp.fraction)
                  receive64_ts :=
                    prv_utility_ntp_to_epoch
                      (exlibSLNETUTIL_NTOHL p.receiveTimestamp.seconds)
                      (exlibSLNETUTIL_NTOHL p.receiveTimestamp.fraction)
                  referenceTimestamp :=
                    { seconds := exlibSLNETUTIL_NTOHL p.referenceTimestamp.seconds
                      fraction := exlibSLNETUTIL_NTOHL p.referenceTimestamp.fraction }
                  receiveTimestamp :=
                    { seconds := exlibSLNETUTIL_NTOHL p.receiveTimestamp.seconds
                      fraction := exlibSLNETUTIL_NTOHL p.receiveTimestamp.fraction }
                  transmitTimestamp :=
                    { seconds := exlibSLNETUTIL_NTOHL p.transmitTimestamp.seconds
                      fraction := exlibSLNETUTIL_NTOHL p.transmitTimestamp.fraction } }
            state := .COMPLETE })

/-- The sntp_sapi dispatch table: exactly one handler per state.  The
driving loop never dispatches on COMPLETE (its guard stops first), so
that case is an inert identity here. -/
def execState (env : Env) (g : GState) : sntp_ud × GState :=
  match g.state with
  | .OPEN => sFct_sntp_OpenConnection env g
  | .SENDING => sFct_sntp_SendRequest env g
  | .RECEIVING => sFct_sntp_ReceiveResponse env g
  | .HANDLING_RSP => sFct_sntp_HandlingResponse g
  | .CLOSE => sFct_sntp_CloseConnection g
  | .COMPLETE => (.SNTPEX_SUCCESS, g)

/-- The driving while-loop of sntpex_client_timestamp_get, with explicit
fuel and a ghost trace of the states whose handlers were executed, in
order.  The loop runs while the last handler returned SNTPEX_SUCCESS and
the state is not COMPLETE. -/
def runLoopT : Nat → Env → GState → sntp_ud × GState × List udSntpClientState
  | 0, _, g => (.SNTPEX_SUCCESS, g, [])
  | fuel + 1, env, g =>
    if g.state = .COMPLETE then (.SNTPEX_SUCCESS, g, [])
    else
      let r := execState env g
      if r.1 = .SNTPEX_SUCCESS then
        let r2 := runLoopT fuel env r.2
        (r2.1, r2.2.1, g.state :: r2.2.2)
      else (r.1, r.2, [g.state])

/-- sntpex_client_timestamp_get with the ghost trace: record the entry
tick, run the state machine; on success reset the state to SENDING for
the next call, otherwise unregister the receive event, run the Closing
handler and return the error unchanged. -/
def sntpex_client_timestamp_getT (fuel : Nat) (env : Env) (g : GState) :
    sntp_ud × GState × List udSntpClientState :=
  let gIn := { g with startTime := env.tick }
  let r := runLoopT fuel env gIn
  if r.1 = .SNTPEX_SUCCESS then (r.1, { r.2.1 with state := .SENDING }, r.2.2)
  else
    let g2 := { r.2.1 with
                  ev := prv_utility_unregister_event exlibSNTP_SOFTSR_RECV_BIT r.2.1.ev }
    (r.1, (sFct_sntp_CloseConnection g2).2, r.2.2)

/-- sntpex_client_timestamp_get: the trace-erased version. -/
def sntpex_client_timestamp_get (fuel : Nat) (env : Env) (g : GState) :
    sntp_ud × GState :=
  ((sntpex_client_timestamp_getT fuel env g).1,
    (sntpex_client_timestamp_getT fuel env g).2.1)

/-- sntpex_client_Kiss_code_get: the stored Kiss-of-Death code, or 0
when the handle pointer is NULL. -/
def sntpex_client_Kiss_code_get (p_client : Option GState) : Nat :=
  match p_client with
  | none => 0
  | some c => c.kissCode

/-- sntpex_eventTriggingFromISR: drain the pending event from the soft
status register and capture the arrival timestamp.  The last component
of the result is a ghost record of the callback invocation (the event
bit passed to the registered callback, if one was invoked).  Note that
the C code tests the register with the logical operators
(SR && exlibSNTP_SOFTSR_RECV_BIT), so the first branch is taken whenever
SR is non-zero; that is embedded faithfully below. -/
def sntpex_eventTriggingFromISR (vtableNull : Bool) (nowUnix : Nat)
    (ev : ux_sntpAsynchEvent) : sntp_ud × ux_sntpAsynchEvent × Option Nat :=
  if vtableNull = true ∨ ev.SR = 0 then (.SNTPEX_ERR_FAULT_INIT, ev, none)
  else if ev.SR ≠ 0 ∧ exlibSNTP_SOFTSR_RECV_BIT ≠ 0 then
    let ev1 := { ev with
                   SR := byteClear ev.SR exlibSNTP_SOFTSR_RECV_BIT
                   timestamp := nowUnix }
    (.SNTPEX_SUCCESS, ev1,
      if ev1.cbRegistered then some exlibSNTP_SOFTSR_RECV_BIT else none)
  else if ev.SR ≠ 0 ∧ exlibSNTP_SOFTSR_SEND_BIT ≠ 0 then
    let ev1 := { ev with
                   SR := byteClear ev.SR exlibSNTP_SOFTSR_SEND_BIT
                   timestamp := nowUnix }
    (.SNTPEX_SUCCESS, ev1,
      if ev1.cbRegistered then some exlibSNTP_SOFTSR_SEND_BIT else none)
  else (.SNTPEX_SUCCESS, ev, none)

/-! ## Concrete fixtures used by witnesses and counterexamples -/

/-- A zeroed result record. -/
def zeroRecord : xTimestampCtx_t :=
  { referenceTimestamp := ⟨0, 0⟩, originateTimestamp := ⟨0, 0⟩
    receiveTimestamp := ⟨0, 0⟩, transmitTimestamp := ⟨0, 0⟩
    originate64_ts := 0, reference64_ts := 0, receive64_ts := 0, transmit64_ts := 0 }

/-- A freshly initialized client state, as sntpex_clientInitialization
leaves it (state OPEN, fd = -1, everything else cleared). -/
def gInit : GState :=
  { state := .OPEN, timeout := exlibSNTP_CLIENT_DEFAULT_TIMEOUT, startTime := 0
    payload := zeroPacket, payloadLen := 0, kissCode := 0, expected_orig_ts := 0
    record := zeroRecord, sockPresent := true, fd := -1
    ev := { timestamp := 0, cbRegistered := false, SR := 0 } }

/-- A well-formed stratum-2 server reply whose echoed originate fraction
matches the nonce 287454020 sent under envOk (raw wire fields are the
byte-swapped numeric values). -/
def validReply : x_sntp_request :=
  { zeroPacket with
      vn := 4, mode := 4, stratum := 2
      referenceId := 168496141
      referenceTimestamp := ⟨exlibSLNETUTIL_HTONL 3900000100, exlibSLNETUTIL_HTONL 7⟩
      originateTimestamp := ⟨0, exlibSLNETUTIL_HTONL 287454020⟩
      receiveTimestamp := ⟨exlibSLNETUTIL_HTONL 3900000200, exlibSLNETUTIL_HTONL 8⟩
      transmitTimestamp := ⟨exlibSLNETUTIL_HTONL 3900000300, exlibSLNETUTIL_HTONL 9⟩ }

/-- An environment in which every collaborator succeeds. -/
def envOk : Env :=
  { tick := 287454020, unixTime := 1700000000, createResult := 3, setOptResult := 0
    sendResult := 48, recvResult := 48, recvPacket := validReply, isrTimestamp := 555 }

/-- envOk with a failing transmit (SlNetSock_sendTo returns -5). -/
def envSendFail : Env := { envOk with sendResult := -5 }

/-- envOk with a failing socket creation (SlNetSock_create returns -2). -/
def envCreateFail : Env := { envOk with createResult := -2 }

/-- A client state about to run the Receiving handler after a
successful send under envOk. -/
def gRecv : GState :=
  { gInit with state := .RECEIVING, payloadLen := 48, fd := 3
               expected_orig_ts := 287454020 }

/-- A Kiss-of-Death reply: stratum 0 and the reference identifier whose
wire bytes are the ASCII string RATE (raw little-endian read
0x45544152). -/
def rateReply : x_sntp_request :=
  { validReply with stratum := 0, referenceId := 0x45544152 }

/-- A client state about to run the HandlingResponse handler on the
RATE Kiss-of-Death reply. -/
def gRate : GState :=
  { gInit with state := .HANDLING_RSP, payload := rateReply, payloadLen := 48
               fd := 3, expected_orig_ts := 287454020 }

/-- A client state about to handle a well-formed stratum-2 reply. -/
def gHandOk : GState := { gRate with payload := validReply }

/-- A client state holding a stale Kiss code from an earlier call,
about to handle a reply with version 0. -/
def gStaleKiss : GState :=
  { gRate with payload := { validReply with vn := 0 }, kissCode := 1381322821 }

/-- A client state about to handle a reply whose echoed originate
fraction does not match the stored nonce. -/
def gBadNonce : GState :=
  { gRate with payload := { validReply with originateTimestamp := ⟨0, 1⟩ } }

/-! ## Shared invariant lemmas about the handlers and the loop -/

/-- The state-transition edges the code actually takes on success. -/
def codeEdges : List (udSntpClientState × udSntpClientState) :=
  [(.OPEN, .SENDING), (.SENDING, .RECEIVING), (.RECEIVING, .HANDLING_RSP),
   (.HANDLING_RSP, .COMPLETE), (.CLOSE, .OPEN), (.COMPLETE, .COMPLETE)]

/-- The fields of the result record that HandlingResponse decodes from
the server reply (everything except originate64 and reference64, which
the Sending and Receiving handlers write). -/
def decodedFields (r : xTimestampCtx_t) :
    NtpTimestamp × NtpTimestamp × NtpTimestamp × NtpTimestamp × Nat × Nat :=
  (r.referenceTimestamp, r.originateTimestamp, r.receiveTimestamp,
    r.transmitTimestamp, r.receive64_ts, r.transmit64_ts)

theorem execState_error_state (env : Env) (g : GState)
    (h : (execState env g).1 ≠ .SNTPEX_SUCCESS) :
    (execState env g).2.state = g.state := by
  unfold execState at *
  cases hs : g.state <;> rw [hs] at h <;>
    simp only [sFct_sntp_OpenConnection, sFct_sntp_SendRequest,
      sFct_sntp_ReceiveResponse, sFct_sntp_HandlingResponse,
      sFct_sntp_CloseConnection, prv_utility_build_request,
      prv_utility_register_event, prv_utility_unregister_event] at h ⊢ <;>
    first
    | (split_ifs at h ⊢ <;> simp_all)
    | simp_all

theorem execState_sockPresent (env : Env) (g : GState) :
    (execState env g).2.sockPresent = g.sockPresent := by
  unfold execState
  cases hs : g.state <;>
    simp only [sFct_sntp_OpenConnection, sFct_sntp_SendRequest,
      sFct_sntp_ReceiveResponse, sFct_sntp_HandlingResponse,
      sFct_sntp_CloseConnection, prv_utility_build_request,
      prv_utility_register_event, prv_utility_unregister_event] <;>
    first
    | (split_ifs <;> simp_all)
    | simp_all

theorem execState_decoded (env : Env) (g : GState) :
    (execState env g).2.state = .COMPLETE
    ∨ decodedFields (execState env g).2.record = decodedFields g.record := by
  unfold execState
  cases hs : g.state <;>
    simp only [sFct_sntp_OpenConnection, sFct_sntp_SendRequest,
      sFct_sntp_ReceiveResponse, sFct_sntp_HandlingResponse,
      sFct_sntp_CloseConnection, prv_utility_build_request,
      prv_utility_register_event, prv_utility_unregister_event, decodedFields] <;>
    first
    | (split_ifs <;> simp_all)
    | simp_all

theorem execState_payloadLen (env : Env) (g : GState) :
    (execState env g).2.payloadLen = g.payloadLen
    ∨ (execState env g).2.payloadLen = sizeof_x_sntp_request := by
  unfold execState
  cases hs : g.state <;>
    simp only [sFct_sntp_OpenConnection, sFct_sntp_SendRequest,
      sFct_sntp_ReceiveResponse, sFct_sntp_HandlingResponse,
      sFct_sntp_CloseConnection, prv_utility_build_request,
      prv_utility_register_event, prv_utility_unregister_event] <;>
    first
    | (split_ifs <;> simp_all)
    | simp_all

theorem runLoopT_complete (fuel : Nat) (env : Env) (g : GState)
    (h : g.state = .COMPLETE) :
    runLoopT fuel env g = (.SNTPEX_SUCCESS, g, []) := by
  cases fuel <;> simp [runLoopT, h]

theorem runLoopT_sockPresent (fuel : Nat) (env : Env) (g : GState) :
    (runLoopT fuel env g).2.1.sockPresent = g.sockPresent := by
  induction fuel generalizing g with
  | zero => simp [runLoopT]
  | succ n ih =>
    by_cases hcomp : g.state = .COMPLETE
    · simp [runLoopT, hcomp]
    · by_cases hsucc : (execState env g).1 = .SNTPEX_SUCCESS
      · simp only [runLoopT, if_neg hcomp, if_pos hsucc]
        exact (ih (execState env g).2).trans (execState_sockPresent env g)
      · simp only [runLoopT, if_neg hcomp, if_neg hsucc]
        exact execState_sockPresent env g

theorem runLoopT_error_decoded (fuel : Nat) (env : Env) (g : GState)
    (h : (runLoopT fuel env g).1 ≠ .SNTPEX_SUCCESS) :
    decodedFields (runLoopT fuel env g).2.1.record = decodedFields g.record := by
  induction fuel generalizing g with
  | zero => simp [runLoopT] at h
  | succ n ih =>
    by_cases hcomp : g.state = .COMPLETE
    · rw [runLoopT_complete _ env g hcomp] at h
      simp at h
    · by_cases hsucc : (execState env g).1 = .SNTPEX_SUCCESS
      · simp only [runLoopT, if_neg hcomp, if_pos hsucc] at h ⊢
        have hg1 : decodedFields (execState env g).2.record = decodedFields g.record := by
          rcases execState_decoded env g with hc | hp
          · exfalso
            rw [runLoopT_complete n env _ hc] at h
            exact h rfl
          · exact hp
        exact (ih (execState env g).2 h).trans hg1
      · simp only [runLoopT, if_neg hcomp, if_neg hsucc]
        rcases execState_decoded env g with hc | hp
        · exfalso
          rw [execState_error_state env g hsucc] at hc
          exact hcomp hc
        · exact hp

theorem sFct_close_fields (g : GState) :
    (sFct_sntp_CloseConnection g).2.record = g.record
    ∧ (sFct_sntp_CloseConnection g).2.ev = g.ev
    ∧ (g.sockPresent = true →
        (sFct_sntp_CloseConnection g).2.fd = -1
        ∧ (sFct_sntp_CloseConnection g).2.state = .OPEN) := by
  unfold sFct_sntp_CloseConnection
  split_ifs <;> simp_all

theorem byteClear_recv_mod_two (sr : Nat) :
    byteClear sr exlibSNTP_SOFTSR_RECV_BIT % 2 = 0 := by
  unfold byteClear exlibSNTP_SOFTSR_RECV_BIT
  rw [← Nat.and_one_is_mod, Nat.and_assoc]
  have h : ((255 ^^^ 1 : Nat) &&& 1) = 0 := by decide
  rw [h]
  simp

theorem unregister_recv_fields (ev : ux_sntpAsynchEvent) :
    (prv_utility_unregister_event exlibSNTP_SOFTSR_RECV_BIT ev).timestamp = 0
    ∧ (prv_utility_unregister_event exlibSNTP_SOFTSR_RECV_BIT ev).cbRegistered = false
    ∧ (prv_utility_unregister_event exlibSNTP_SOFTSR_RECV_BIT ev).SR % 2 = 0 :=
  ⟨rfl, rfl, byteClear_recv_mod_two ev.SR⟩

/-! ## Step-by-step evaluation of two concrete runs

Evaluating a whole run inside one kernel reduction is expensive, so the
concrete runs used by witnesses and counterexamples are evaluated one
handler step at a time through explicit intermediate states. -/

/-- The request packet built with nonce 287454020. -/
def reqPacket : x_sntp_request :=
  { zeroPacket with
      vn := specNTP_VERSION_V4, mode := specNTP_MODE_CLIENT, stratum := 2
      poll := 0x06, precision := 0xec
      transmitTimestamp := ⟨0, exlibSLNETUTIL_HTONL 287454020⟩ }

/-- gInit after the entry tick of envOk has been recorded. -/
def gs0 : GState := { gInit with startTime := 287454020 }

/-- gs0 after a successful Open (descriptor 3, state Sending). -/
def gs1 : GState := { gs0 with state := .SENDING, fd := 3 }

/-- gs1 after a successful Send under envOk. -/
def gs2 : GState :=
  { gs1 with state := .RECEIVING, payloadLen := 48, expected_orig_ts := 287454020
             record := { zeroRecord with originate64_ts := 1700000000 } }

/-- gs2 after a successful Receive under envOk (arrival timestamp 555). -/
def gs3 : GState :=
  { gs2 with state := .HANDLING_RSP, payload := validReply
             record := { zeroRecord with originate64_ts := 1700000000
                                         reference64_ts := 555 } }

/-- gs3 after a successful HandlingResponse: the record is populated and
the state is Complete. -/
def gs4 : GState :=
  { gs3 with state := .COMPLETE
             record := { zeroRecord with
                           originate64_ts := 1700000000
                           reference64_ts := 555
                           referenceTimestamp := ⟨3900000100, 7⟩
                           receiveTimestamp := ⟨3900000200, 8⟩
                           transmitTimestamp := ⟨3900000300, 9⟩
                           receive64_ts := 1691011400000000
                           transmit64_ts := 1691011500000000 } }

/-- gs1 after the failing Send of envSendFail: originate64 is already
written, the request is still in the payload buffer, the state is
unchanged. -/
def gs2e : GState :=
  { gs1 with payload := reqPacket, payloadLen := 48, expected_orig_ts := 287454020
             record := { zeroRecord with originate64_ts := 1700000000 } }

/-- The state returned to the caller by the failing-send run, after the
error path has unregistered the event and closed the transport. -/
def gsErrFinal : GState := { gs2e with fd := -1, state := .OPEN }

/-- gs0 after the failing Open of envCreateFail: the negative create
result is stored in fd before the error return. -/
def gsCre : GState := { gs0 with fd := -2 }

/-- The state returned to the caller by the failing-create run. -/
def gsCreFinal : GState := { gs0 with fd := -1 }

theorem runLoopT_step (fuel : Nat) (env : Env) (g g1 : GState)
    (st : udSntpClientState) (out : sntp_ud × GState × List udSntpClientState)
    (hst : g.state = st) (hnc : st ≠ .COMPLETE)
    (hexec : execState env g = (.SNTPEX_SUCCESS, g1))
    (hrest : runLoopT fuel env g1 = out) :
    runLoopT (fuel + 1) env g = (out.1, out.2.1, st :: out.2.2) := by
  simp only [runLoopT]
  rw [hst, if_neg hnc, hexec]
  simp [hrest]

theorem runLoopT_err_step (fuel : Nat) (env : Env) (g g1 : GState) (c : sntp_ud)
    (st : udSntpClientState) (hst : g.state = st) (hnc : st ≠ .COMPLETE)
    (hexec : execState env g = (c, g1)) (hc : c ≠ .SNTPEX_SUCCESS) :
    runLoopT (fuel + 1) env g = (c, g1, [st]) := by
  simp only [runLoopT]
  rw [hst, if_neg hnc, hexec]
  simp [hc]

theorem getT_of_run_ok (fuel : Nat) (env : Env) (g : GState)
    (out : sntp_ud × GState × List udSntpClientState)
    (hrun : runLoopT fuel env { g with startTime := env.tick } = out)
    (hsucc : out.1 = .SNTPEX_SUCCESS) :
    sntpex_client_timestamp_getT fuel env g
      = (out.1, { out.2.1 with state := .SENDING }, out.2.2) := by
  simp only [sntpex_client_timestamp_getT]
  rw [hrun, if_pos hsucc]

theorem getT_of_run_err (fuel : Nat) (env : Env) (g : GState)
    (out : sntp_ud × GState × List udSntpClientState)
    (hrun : runLoopT fuel env { g with startTime := env.tick } = out)
    (herr : out.1 ≠ .SNTPEX_SUCCESS) :
    sntpex_client_timestamp_getT fuel env g
      = (out.1,
         (sFct_sntp_CloseConnection
           { out.2.1 with
               ev := prv_utility_unregister_event exlibSNTP_SOFTSR_RECV_BIT
                       out.2.1.ev }).2,
         out.2.2) := by
  simp only [sntpex_client_timestamp_getT]
  rw [hrun, if_neg herr]

theorem get_of_getT (fuel : Nat) (env : Env) (g : GState)
    (out : sntp_ud × GState × List udSntpClientState)
    (h : sntpex_client_timestamp_getT fuel env g = out) :
    sntpex_client_timestamp_get fuel env g = (out.1, out.2.1) := by
  unfold sntpex_client_timestamp_get
  rw [h]

/-- The all-success run, one handler at a time. -/
theorem runOk : runLoopT 6 envOk gs0
    = (.SNTPEX_SUCCESS, gs4, [.OPEN, .SENDING, .RECEIVING, .HANDLING_RSP]) := by
  have e1 : execState envOk gs0 = (.SNTPEX_SUCCESS, gs1) := rfl
  have e2 : execState envOk gs1 = (.SNTPEX_SUCCESS, gs2) := rfl
  have e3 : execState envOk gs2 = (.SNTPEX_SUCCESS, gs3) := rfl
  have e4 : execState envOk gs3 = (.SNTPEX_SUCCESS, gs4) := rfl
  have r2 : runLoopT 2 envOk gs4 = (.SNTPEX_SUCCESS, gs4, []) :=
    runLoopT_complete 2 envOk gs4 (by decide)
  have r3 : runLoopT 3 envOk gs3 = (.SNTPEX_SUCCESS, gs4, [.HANDLING_RSP]) :=
    runLoopT_step 2 envOk gs3 gs4 .HANDLING_RSP _ (by decide) (by decide) e4 r2
  have r4 : runLoopT 4 envOk gs2
      = (.SNTPEX_SUCCESS, gs4, [.RECEIVING, .HANDLING_RSP]) :=
    runLoopT_step 3 envOk gs2 gs3 .RECEIVING _ (by decide) (by decide) e3 r3
  have r5 : runLoopT 5 envOk gs1
      = (.SNTPEX_SUCCESS, gs4, [.SENDING, .RECEIVING, .HANDLING_RSP]) :=
    runLoopT_step 4 envOk gs1 gs2 .SENDING _ (by decide) (by decide) e2 r4
  exact runLoopT_step 5 envOk gs0 gs1 .OPEN _ (by decide) (by decide) e1 r5

/-- The all-success call at the API level. -/
theorem getT_ok : sntpex_client_timestamp_getT 6 envOk gInit
    = (.SNTPEX_SUCCESS, { gs4 with state := .SENDING },
       [.OPEN, .SENDING, .RECEIVING, .HANDLING_RSP]) :=
  getT_of_run_ok 6 envOk gInit _ runOk rfl

/-- The failing-send run, one handler at a time. -/
theorem runErr : runLoopT 6 envSendFail gs0
    = (.SNTPEX_ERR_TX, gs2e, [.OPEN, .SENDING]) := by
  have e1 : execState envSendFail gs0 = (.SNTPEX_SUCCESS, gs1) := rfl
  have e2 : execState envSendFail gs1 = (.SNTPEX_ERR_TX, gs2e) := rfl
  have r5 : runLoopT 5 envSendFail gs1 = (.SNTPEX_ERR_TX, gs2e, [.SENDING]) :=
    runLoopT_err_step 4 envSendFail gs1 gs2e _ .SENDING (by decide) (by decide)
      e2 (by decide)
  exact runLoopT_step 5 envSendFail gs0 gs1 .OPEN _ (by decide) (by decide) e1 r5

/-- The failing-send call at the API level. -/
theorem get_err : sntpex_client_timestamp_get 6 envSendFail gInit
    = (.SNTPEX_ERR_TX, gsErrFinal) := by
  have h := getT_of_run_err 6 envSendFail gInit _ runErr (by decide)
  have h2 := get_of_getT 6 envSendFail gInit _ h
  rw [h2]
  rfl

/-- The failing-create run. -/
theorem runCre : runLoopT 6 envCreateFail gs0
    = (.SNTPEX_ERR_SOCKET_CREATE, gsCre, [.OPEN]) :=
  runLoopT_err_step 5 envCreateFail gs0 gsCre _ .OPEN (by decide) (by decide)
    rfl (by decide)

/-- The failing-create call at the API level. -/
theorem get_cre : sntpex_client_timestamp_get 6 envCreateFail gInit
    = (.SNTPEX_ERR_SOCKET_CREATE, gsCreFinal) := by
  have h := getT_of_run_err 6 envCreateFail gInit _ runCre (by decide)
  have h2 := get_of_getT 6 envCreateFail gInit _ h
  rw [h2]
  rfl

/-- C3 (amended): every handler transition follows the edge relation the
code implements — on success the state advances along Open → Sending →
Receiving → HandlingResponse → Complete, with Closing returning to Open,
and on error the state is unchanged — and a successful call executes
exactly the handlers Open, Sending, Receiving, HandlingResponse in that
order: HandlingResponse moves directly to Complete without executing
Closing, the transport descriptor remains open after success, and the
stored state is reset to Sending for the next call. -/
theorem state_machine_edges_and_success_path :
    (∀ env g, (execState env g).1 = .SNTPEX_SUCCESS →
      (g.state, (execState env g).2.state) ∈ codeEdges)
    ∧ (∀ env g, (execState env g).1 ≠ .SNTPEX_SUCCESS →
      (execState env g).2.state = g.state)
    ∧ (sntpex_client_timestamp_getT 6 envOk gInit).1 = .SNTPEX_SUCCESS
    ∧ (sntpex_client_timestamp_getT 6 envOk gInit).2.2
        = [.OPEN, .SENDING, .RECEIVING, .HANDLING_RSP]
    ∧ (sntpex_client_timestamp_getT 6 envOk gInit).2.1.state = .SENDING
    ∧ (sntpex_client_timestamp_getT 6 envOk gInit).2.1.fd = 3 := by
  refine ⟨?_, fun env g h => execState_error_state env g h,
    by rw [getT_ok], by rw [getT_ok], by rw [getT_ok], by rw [getT_ok]; decide⟩
  intro env g h
  unfold execState at h ⊢
  cases hs : g.state
  case OPEN =>
    rw [hs] at h
    simp only [sFct_sntp_OpenConnection] at h ⊢
    split_ifs at h ⊢ <;> simp_all [codeEdges]
  case SENDING =>
    rw [hs] at h
    simp only [sFct_sntp_SendRequest] at h ⊢
    split_ifs at h ⊢ <;> simp_all [codeEdges]
  case RECEIVING =>
    rw [hs] at h
    simp only [sFct_sntp_ReceiveResponse] at h ⊢
    split_ifs at h ⊢ <;> simp_all [codeEdges]
  case HANDLING_RSP =>
    rw [hs] at h
    simp only [sFct_sntp_HandlingResponse] at h ⊢
    split_ifs at h ⊢ <;> simp_all [codeEdges]
  case CLOSE =>
    rw [hs] at h
    simp only [sFct_sntp_CloseConnection] at h ⊢
    split_ifs at h ⊢ <;> simp_all [codeEdges]
  case COMPLETE =>
    simp [codeEdges, hs]

/-- Witness for state_machine_edges_and_success_path: the Open handler
takes the edge Open → Sending under envOk. -/
theorem state_machine_edges_witness :
    (gInit.state, (execState envOk gInit).2.state) ∈ codeEdges :=
  state_machine_edges_and_success_path.1 envOk gInit (by decide)

/-- C3 counterexample: the successful run under envOk executes only the
handlers Open, Sending, Receiving, HandlingResponse — the Closing state
is never entered on the way to Complete, and the transport descriptor is
still open (3, not the unopened sentinel) when Success is returned. -/
theorem success_path_skips_closing_cex :
    (sntpex_client_timestamp_getT 6 envOk gInit).1 = .SNTPEX_SUCCESS
    ∧ udSntpClientState.CLOSE ∉ (sntpex_client_timestamp_getT 6 envOk gInit).2.2
    ∧ (sntpex_client_timestamp_getT 6 envOk gInit).2.1.fd ≠ -1 := by
  rw [getT_ok]
  refine ⟨rfl, by decide, by decide⟩

/-- C1 counterexample: with a failing transmit the call returns
SNTPEX_ERR_TX, yet the caller record's originate64_ts — 0 before the
call — has been overwritten with the time-source value 1700000000, so
out_record is not left untouched on this error path. -/
theorem record_touched_on_error_cex :
    (sntpex_client_timestamp_get 6 envSendFail gInit).1 = .SNTPEX_ERR_TX
    ∧ gInit.record.originate64_ts = 0
    ∧ (sntpex_client_timestamp_get 6 envSendFail gInit).2.record.originate64_ts
        = 1700000000 := by
  rw [get_err]
  refine ⟨rfl, rfl, rfl⟩

/-- C1 (amended): whenever sntpex_client_timestamp_get returns an error,
the decoded server fields of the caller record (the stored reference,
originate, receive and transmit NTP timestamps and the derived
receive64/transmit64 values) are exactly as the caller left them; only
originate64_ts (written by Sending before the transmit) and
reference64_ts (written by Receiving) may have been overwritten, and the
record is fully written only on a Success return. -/
theorem record_error_decoded_untouched (fuel : Nat) (env : Env) (g : GState)
    (h : (sntpex_client_timestamp_get fuel env g).1 ≠ .SNTPEX_SUCCESS) :
    decodedFields (sntpex_client_timestamp_get fuel env g).2.record
      = decodedFields g.record := by
  unfold sntpex_client_timestamp_get sntpex_client_timestamp_getT at h ⊢
  by_cases hs : (runLoopT fuel env { g with startTime := env.tick }).1 = .SNTPEX_SUCCESS
  · rw [if_pos hs] at h
    exact absurd hs (by simpa using h)
  · rw [if_neg hs]
    simp only
    rw [(sFct_close_fields _).1]
    have hpres := runLoopT_error_decoded fuel env { g with startTime := env.tick } hs
    simpa using hpres

/-- Witness for record_error_decoded_untouched on the failing-transmit
run. -/
theorem record_error_decoded_untouched_witness :
    (sntpex_client_timestamp_get 6 envSendFail gInit).1 ≠ .SNTPEX_SUCCESS
    ∧ decodedFields (sntpex_client_timestamp_get 6 envSendFail gInit).2.record
        = decodedFields gInit.record :=
  ⟨by rw [get_err]; decide,
    record_error_decoded_untouched 6 envSendFail gInit (by rw [get_err]; decide)⟩

/-- C7: when sntpex_client_timestamp_get returns a non-Success code on a
handle with an attached socket, the receive event has been unregistered
(captured timestamp cleared, callback cleared, receive-pending bit
cleared), the Closing handler has run so the descriptor is the unopened
sentinel -1 and the state is Open, and the returned code is exactly the
code the driving loop stopped with; moreover the loop stops at the very
first handler error and propagates that code unmodified, with no retry. -/
theorem error_return_cleanup :
    (∀ fuel env g, g.sockPresent = true →
      (sntpex_client_timestamp_get fuel env g).1 ≠ .SNTPEX_SUCCESS →
      (sntpex_client_timestamp_get fuel env g).2.fd = -1
      ∧ (sntpex_client_timestamp_get fuel env g).2.state = .OPEN
      ∧ (sntpex_client_timestamp_get fuel env g).2.ev.timestamp = 0
      ∧ (sntpex_client_timestamp_get fuel env g).2.ev.cbRegistered = false
      ∧ (sntpex_client_timestamp_get fuel env g).2.ev.SR % 2 = 0
      ∧ (sntpex_client_timestamp_get fuel env g).1
          = (runLoopT fuel env { g with startTime := env.tick }).1)
    ∧ (∀ fuel env g, g.state ≠ .COMPLETE →
      (execState env g).1 ≠ .SNTPEX_SUCCESS →
      runLoopT (fuel + 1) env g
        = ((execState env g).1, (execState env g).2, [g.state])) := by
  constructor
  · intro fuel env g hsock h
    simp only [sntpex_client_timestamp_get, sntpex_client_timestamp_getT] at h ⊢
    by_cases hs : (runLoopT fuel env { g with startTime := env.tick }).1 = .SNTPEX_SUCCESS
    · rw [if_pos hs] at h
      exact absurd hs (by simpa using h)
    · rw [if_neg hs] at h ⊢
      dsimp only at h ⊢
      have hsp : (runLoopT fuel env { g with startTime := env.tick }).2.1.sockPresent
          = true := by
        rw [runLoopT_sockPresent]
        exact hsock
      have hfields := sFct_close_fields
        { (runLoopT fuel env { g with startTime := env.tick }).2.1 with
            ev := prv_utility_unregister_event exlibSNTP_SOFTSR_RECV_BIT
                    (runLoopT fuel env { g with startTime := env.tick }).2.1.ev }
      refine ⟨(hfields.2.2 hsp).1, (hfields.2.2 hsp).2, ?_, ?_, ?_, rfl⟩
      · rw [hfields.2.1]
        exact (unregister_recv_fields _).1
      · rw [hfields.2.1]
        exact (unregister_recv_fields _).2.1
      · rw [hfields.2.1]
        exact (unregister_recv_fields _).2.2
  · intro fuel env g hnc herr
    simp only [runLoopT, if_neg hnc, if_neg herr]

/-- Witness for error_return_cleanup on the failing-socket-creation
run. -/
theorem error_return_cleanup_witness :
    gInit.sockPresent = true
    ∧ (sntpex_client_timestamp_get 6 envCreateFail gInit).1 ≠ .SNTPEX_SUCCESS
    ∧ (sntpex_client_timestamp_get 6 envCreateFail gInit).2.fd = -1
    ∧ (sntpex_client_timestamp_get 6 envCreateFail gInit).2.state = .OPEN :=
  ⟨rfl, by rw [get_cre]; decide,
    (error_return_cleanup.1 6 envCreateFail gInit rfl (by rw [get_cre]; decide)).1,
    (error_return_cleanup.1 6 envCreateFail gInit rfl (by rw [get_cre]; decide)).2.1⟩

/-- C4 counterexample: after a request is built the stored payload
length is 48 bytes, not the 68-byte value exlibSNTP_TIME_MESSAGE_MAX_SIZE
of the claim, and the Receiving state accepts a 48-byte read even though
48 differs from 68. -/
theorem payload_len_48_cex :
    (prv_utility_build_request 287454020 gInit).2.payloadLen = 48
    ∧ exlibSNTP_TIME_MESSAGE_MAX_SIZE = 68
    ∧ (48 : Nat) ≠ exlibSNTP_TIME_MESSAGE_MAX_SIZE
    ∧ (sFct_sntp_ReceiveResponse envOk gRecv).1 = .SNTPEX_SUCCESS
    ∧ envOk.recvResult = 48 := by
  refine ⟨rfl, rfl, by decide, by decide, rfl⟩

/-- C4 (amended): after a request is built the handle's payloadLen
equals sizeof(struct x_sntp_request), which is 48 bytes (the 68-byte
constant is only the capacity of the payload buffer); no state handler
ever sets payloadLen to any other value, and the Receiving state
succeeds only when the number of bytes read equals exactly the stored
48-byte payload length. -/
theorem payload_len_amended :
    (∀ tick g, (prv_utility_build_request tick g).2.payloadLen = sizeof_x_sntp_request)
    ∧ sizeof_x_sntp_request = 48
    ∧ (∀ env g, (execState env g).2.payloadLen = g.payloadLen
        ∨ (execState env g).2.payloadLen = sizeof_x_sntp_request)
    ∧ (∀ env g, (sFct_sntp_ReceiveResponse env g).1 = .SNTPEX_SUCCESS →
        env.recvResult = (g.payloadLen : Int)) := by
  refine ⟨fun tick g => rfl, rfl, execState_payloadLen, ?_⟩
  intro env g h
  simp only [sFct_sntp_ReceiveResponse] at h
  split_ifs at h <;> simp_all

/-- Witness for payload_len_amended on the successful receive under
envOk. -/
theorem payload_len_amended_witness :
    (sFct_sntp_ReceiveResponse envOk gRecv).1 = .SNTPEX_SUCCESS
    ∧ envOk.recvResult = (gRecv.payloadLen : Int) :=
  ⟨by decide, payload_len_amended.2.2.2 envOk gRecv (by decide)⟩



/-- C5: a reply that passes the length, version, transmit-timestamp,
mode and originate-nonce checks and has stratum 0 makes HandlingResponse
store the byte-swapped 32-bit reference identifier as the Kiss-of-Death
code and return RequestRejected, leaving everything else — in
particular the timestamp record and the state — unchanged; the stored
code is what sntpex_client_Kiss_code_get subsequently returns, and that
getter returns 0 for a NULL handle. -/
theorem kiss_of_death_handling :
    (∀ g, sizeof_x_sntp_request ≤ g.payloadLen →
      g.payload.vn ≠ 0 →
      ¬(g.payload.transmitTimestamp.seconds = 0
          ∧ g.payload.transmitTimestamp.fraction = 0) →
      (g.payload.mode = specNTP_MODE_SERVER
          ∨ g.payload.mode = specNTP_MODE_BROADCAST) →
      g.payload.originateTimestamp.seconds = 0 →
      g.payload.originateTimestamp.fraction
          = exlibSLNETUTIL_NTOHL g.expected_orig_ts →
      g.payload.stratum = 0 →
      sFct_sntp_HandlingResponse g
        = (.SNTPEX_ERR_REQUEST_REJECTED,
            { g with kissCode := exlibSLNETUTIL_NTOHL g.payload.referenceId }))
    ∧ (∀ g, sntpex_client_Kiss_code_get (some g) = g.kissCode)
    ∧ sntpex_client_Kiss_code_get none = 0 := by
  refine ⟨?_, fun g => rfl, rfl⟩
  intro g hlen hvn htr hmode hos hof hstr
  have h1 : ¬ g.payloadLen < sizeof_x_sntp_request := by omega
  have h4 : ¬(g.payload.mode ≠ specNTP_MODE_SERVER
      ∧ g.payload.mode ≠ specNTP_MODE_BROADCAST) := by tauto
  have h5 : ¬(g.payload.originateTimestamp.seconds ≠ 0
      ∨ g.payload.originateTimestamp.fraction
          ≠ exlibSLNETUTIL_NTOHL g.expected_orig_ts) := by tauto
  simp only [sFct_sntp_HandlingResponse, if_neg h1, if_neg hvn, if_neg htr,
    if_neg h4, if_neg h5, if_pos hstr]

/-- Witness for kiss_of_death_handling: the RATE Kiss-of-Death reply
yields RequestRejected with stored code 0x52415445, which the getter
returns. -/
theorem kiss_of_death_handling_witness :
    sFct_sntp_HandlingResponse gRate
      = (.SNTPEX_ERR_REQUEST_REJECTED,
          { gRate with kissCode := exlibSLNETUTIL_NTOHL gRate.payload.referenceId })
    ∧ exlibSLNETUTIL_NTOHL gRate.payload.referenceId = 0x52415445
    ∧ sntpex_client_Kiss_code_get
        (some { gRate with
                  kissCode := exlibSLNETUTIL_NTOHL gRate.payload.referenceId })
        = 0x52415445 :=
  ⟨kiss_of_death_handling.1 gRate (by decide) (by decide) (by decide) (by decide)
      (by decide) (by decide) rfl,
    by decide, by decide⟩

/-- C6: the request encoder stores the os-tick nonce in expected_orig_ts
and places its byte-swapped value in the transmit-timestamp fraction of
the outgoing request (seconds half left 0); response validation then
accepts the originate timestamp only when its seconds half is 0 and its
byte-order-normalized fraction equals that nonce, and a mismatch in
either half yields InvalidMessage. -/
theorem originate_nonce_check :
    (∀ tick g,
      (prv_utility_build_request tick g).2.expected_orig_ts = tick
      ∧ (prv_utility_build_request tick g).2.payload.transmitTimestamp.seconds = 0
      ∧ (prv_utility_build_request tick g).2.payload.transmitTimestamp.fraction
          = exlibSLNETUTIL_HTONL tick)
    ∧ (∀ g, g.expected_orig_ts < 2 ^ 32 →
        sizeof_x_sntp_request ≤ g.payloadLen →
        g.payload.vn ≠ 0 →
        ¬(g.payload.transmitTimestamp.seconds = 0
            ∧ g.payload.transmitTimestamp.fraction = 0) →
        (g.payload.mode = specNTP_MODE_SERVER
            ∨ g.payload.mode = specNTP_MODE_BROADCAST) →
        (((sFct_sntp_HandlingResponse g).1 ≠ .SNTPEX_ERR_INVALID_MESSAGE →
            g.payload.originateTimestamp.seconds = 0
            ∧ exlibSLNETUTIL_NTOHL g.payload.originateTimestamp.fraction
                = g.expected_orig_ts)
          ∧ ((g.payload.originateTimestamp.seconds ≠ 0
              ∨ exlibSLNETUTIL_NTOHL g.payload.originateTimestamp.fraction
                  ≠ g.expected_orig_ts) →
            sFct_sntp_HandlingResponse g = (.SNTPEX_ERR_INVALID_MESSAGE, g)))) := by
  refine ⟨fun tick g => ⟨rfl, rfl, rfl⟩, ?_⟩
  intro g he hlen hvn htr hmode
  have h1 : ¬ g.payloadLen < sizeof_x_sntp_request := by omega
  have h4 : ¬(g.payload.mode ≠ specNTP_MODE_SERVER
      ∧ g.payload.mode ≠ specNTP_MODE_BROADCAST) := by tauto
  constructor
  · intro hres
    by_cases hchk : g.payload.originateTimestamp.seconds ≠ 0
        ∨ g.payload.originateTimestamp.fraction
            ≠ exlibSLNETUTIL_NTOHL g.expected_orig_ts
    · exfalso
      apply hres
      simp only [sFct_sntp_HandlingResponse, if_neg h1, if_neg hvn, if_neg htr,
        if_neg h4, if_pos hchk]
    · push_neg at hchk
      obtain ⟨hs0, hf⟩ := hchk
      exact ⟨hs0, by rw [hf, ntohl_ntohl _ he]⟩
  · intro hbad
    have hchk : g.payload.originateTimestamp.seconds ≠ 0
        ∨ g.payload.originateTimestamp.fraction
            ≠ exlibSLNETUTIL_NTOHL g.expected_orig_ts := by
      rcases hbad with hb | hb
      · exact Or.inl hb
      · right
        intro hq
        apply hb
        rw [hq, ntohl_ntohl _ he]
    simp only [sFct_sntp_HandlingResponse, if_neg h1, if_neg hvn, if_neg htr,
      if_neg h4, if_pos hchk]

/-- Witness for originate_nonce_check: a reply whose echoed originate
fraction (raw 1, normalized 16777216) differs from the stored nonce
287454020 is rejected as InvalidMessage. -/
theorem originate_nonce_check_witness :
    sFct_sntp_HandlingResponse gBadNonce = (.SNTPEX_ERR_INVALID_MESSAGE, gBadNonce) :=
  ((originate_nonce_check.2 gBadNonce (by decide) (by decide) (by decide)
      (by decide) (by decide)).2 (by decide))

/-- C8 counterexample: a reply with version 0 is rejected as
InvalidMessage before the Kiss code is cleared, so the handle keeps the
stale Kiss code 0x52415445 from an earlier call instead of 0. -/
theorem stale_kiss_code_cex :
    (sFct_sntp_HandlingResponse gStaleKiss).1 = .SNTPEX_ERR_INVALID_MESSAGE
    ∧ (sFct_sntp_HandlingResponse gStaleKiss).2.kissCode = 1381322821
    ∧ (1381322821 : Nat) ≠ 0 := by
  decide

/-- C8 (amended): the Kiss code is cleared only after a reply has passed
every validity check, immediately before the stratum test: for replies
passing validation it becomes 0 unless the reply has stratum 0, in which
case it becomes the decoded reference identifier; a reply rejected as
InvalidMessage leaves the previously stored Kiss code in place. -/
theorem kiss_code_clearing :
    (∀ g, sizeof_x_sntp_request ≤ g.payloadLen →
      g.payload.vn ≠ 0 →
      ¬(g.payload.transmitTimestamp.seconds = 0
          ∧ g.payload.transmitTimestamp.fraction = 0) →
      (g.payload.mode = specNTP_MODE_SERVER
          ∨ g.payload.mode = specNTP_MODE_BROADCAST) →
      g.payload.originateTimestamp.seconds = 0 →
      g.payload.originateTimestamp.fraction
          = exlibSLNETUTIL_NTOHL g.expected_orig_ts →
      (sFct_sntp_HandlingResponse g).2.kissCode
        = (if g.payload.stratum = 0
            then exlibSLNETUTIL_NTOHL g.payload.referenceId else 0))
    ∧ (∀ g, (sFct_sntp_HandlingResponse g).1 = .SNTPEX_ERR_INVALID_MESSAGE →
      (sFct_sntp_HandlingResponse g).2.kissCode = g.kissCode) := by
  constructor
  · intro g hlen hvn htr hmode hos hof
    have h1 : ¬ g.payloadLen < sizeof_x_sntp_request := by omega
    have h4 : ¬(g.payload.mode ≠ specNTP_MODE_SERVER
        ∧ g.payload.mode ≠ specNTP_MODE_BROADCAST) := by tauto
    have h5 : ¬(g.payload.originateTimestamp.seconds ≠ 0
        ∨ g.payload.originateTimestamp.fraction
            ≠ exlibSLNETUTIL_NTOHL g.expected_orig_ts) := by tauto
    simp only [sFct_sntp_HandlingResponse, if_neg h1, if_neg hvn, if_neg htr,
      if_neg h4, if_neg h5]
    by_cases hstr : g.payload.stratum = 0 <;> simp [hstr]
  · intro g h
    simp only [sFct_sntp_HandlingResponse] at h ⊢
    split_ifs at h ⊢ <;> simp_all

/-- Witness for kiss_code_clearing: the well-formed stratum-2 reply
leaves the Kiss code cleared to 0. -/
theorem kiss_code_clearing_witness :
    (sFct_sntp_HandlingResponse gHandOk).2.kissCode = 0 := by
  have h := kiss_code_clearing.1 gHandOk (by decide) (by decide) (by decide)
    (by decide) (by decide) (by decide)
  rw [h]
  decide

/-- C9 (code evaluation): the guards of sntpex_eventTriggingFromISR test
the status register with the logical AND operator, so whenever the
register is non-zero the receive branch runs.  With only the
send-pending bit set (SR = 2) the function leaves SR = 2 — clearing the
receive bit is a no-op and the send bit is never cleared — captures the
timestamp and invokes the callback with the receive event instead of
the send event; with SR = 0 it returns the initialization fault and
changes nothing; with the receive-pending bit set it behaves as the
claim describes. -/
theorem isr_send_branch_unreachable :
    sntpex_eventTriggingFromISR false 77 ⟨0, true, 2⟩
      = (.SNTPEX_SUCCESS, ⟨77, true, 2⟩, some exlibSNTP_SOFTSR_RECV_BIT)
    ∧ sntpex_eventTriggingFromISR false 77 ⟨5, true, 0⟩
      = (.SNTPEX_ERR_FAULT_INIT, ⟨5, true, 0⟩, none)
    ∧ sntpex_eventTriggingFromISR false 77 ⟨0, true, 1⟩
      = (.SNTPEX_SUCCESS, ⟨77, true, 0⟩, some exlibSNTP_SOFTSR_RECV_BIT) :=
  ⟨rfl, rfl, rfl⟩

end SntpEx
